import Mathlib

/-!
Verification of the barcode-scan-to-basket pipeline of the
smart_grocery_basket_frontend repository.

The TypeScript sources are shallowly embedded: JavaScript numbers are
modelled as rationals (prices) and integers (quantities, stock, times in
milliseconds), fallible calls return `Except`, and the asynchronous
environment (HTTP responses, sync outcomes, frame detections) is passed
explicitly as data.
-/

/-- Catalog product, from `types` / the local interfaces in the components.
`stock` and `expiryDate` are optional in the source; `expiryDate` is a date
string there, modelled as an epoch-millisecond timestamp. -/
structure Product where
  productId : String
  name : String
  mrpPrice : ℚ
  image : String
  category : String
  discounts : Option String
  stock : Option Int
  expiryDate : Option Int
deriving DecidableEq

/-- Basket line item, from the `BasketItem` interface of `useCart.ts` /
`GroceryBasket.tsx`: `price` is the unit-price snapshot taken on insertion. -/
structure BasketItem where
  id : String
  name : String
  price : ℚ
  image : String
  category : String
  discounts : Option String
  quantity : Int
deriving DecidableEq

/-- Replace the quantity of a line item, the `\x7b ...item, quantity \x7d`
spread in the source. -/
def setQty (it : BasketItem) (q : Int) : BasketItem :=
  ⟨it.id, it.name, it.price, it.image, it.category, it.discounts, q⟩

/-! ## Availability gate (`QRScanner.tsx`, `processProductScan`) -/

/-- JavaScript truthiness of
`product.expiryDate && new Date(product.expiryDate) < new Date()`:
an absent date is falsy, a present date compares strictly against now. -/
def jsIsExpired (p : Product) (now : Int) : Bool :=
  match p.expiryDate with
  | none => false
  | some d => decide (d < now)

/-- JavaScript truthiness of `product.stock && product.stock > 0`:
an absent `stock` is falsy (`undefined`), a present `0` is falsy, and a
present nonzero value keeps the value of `product.stock > 0`. -/
def jsTruthyStock (p : Product) : Bool :=
  match p.stock with
  | none => false
  | some s => decide (0 < s)

/-- `isProductInStock` from the utils module: `(product.stock ?? 0) > 0`. -/
def isProductInStock (p : Product) : Bool :=
  decide (0 < p.stock.getD 0)

/-- Network-level failure of one HTTP attempt, from `ApiClient.makeRequest`:
an HTTP error response carries its status, a rejected fetch carries no
status, and the timeout race carries no status either. -/
inductive ReqError
  | http (status : Nat)
  | network
  | timedOut
deriving DecidableEq

/-- Failure inside `searchByBarcode`: its own `Invalid barcode` throw or a
propagated API error. -/
inductive JsError
  | invalidBarcode
  | api (e : ReqError)
deriving DecidableEq

/-- Outcome of `processProductScan` in `QRScanner.tsx`: which branch runs
and whether `addToCart` is invoked. -/
inductive ScanOutcome
  | added (p : Product)
  | expired (p : Product)
  | outOfStock (p : Product)
  | notFound
  | networkError
deriving DecidableEq

/-- The decision part of `processProductScan` (`QRScanner.tsx` lines
125-156), applied to the settled result of `searchByBarcode`: a rejection
hits the catch branch, a `null` product reports not-found, and otherwise
the expiry check runs before the stock check; only the final branch calls
`addToCart`. -/
def processProductScan (res : Except JsError (Option Product)) (now : Int) :
    ScanOutcome :=
  match res with
  | .error _ => .networkError
  | .ok none => .notFound
  | .ok (some p) =>
    if jsIsExpired p now then .expired p
    else if !(jsTruthyStock p) then .outOfStock p
    else .added p

/-! ## Scan deduplication (`QRScanner.tsx`, `scanFrame` and the trailing
`setTimeout` of `processProductScan`) -/

/-- `SCANNER_CONFIG.DUPLICATE_SCAN_TIMEOUT` from the constants module. -/
def DUPLICATE_SCAN_TIMEOUT : Nat := 3000

/-- One barcode detection event: `time` is when `scanFrame` sees the raw
value, `procDur` how long `processProductScan` runs before it schedules its
trailing `setTimeout`, `ok` whether that processing succeeded. -/
structure Detection where
  time : Nat
  barcode : String
  procDur : Nat
  ok : Bool

/-- State of the dedup machinery: the `scannedProductsRef` set, each entry
paired with the instant its scheduled `setTimeout` deletion fires, plus the
list of resolution attempts started so far. -/
structure ScanState where
  seen : List (String × Nat)
  attempts : List (Nat × String)
deriving DecidableEq

/-- Membership of `scannedProductsRef.current` at instant `t`: an entry is
present until its scheduled deletion fires. -/
def isRecent (s : ScanState) (t : Nat) (b : String) : Bool :=
  s.seen.any (fun e => e.1 == b && decide (t < e.2))

/-- One pass of the body of `scanFrame` on a detection: a value already in
the set is ignored; a fresh value is added to the set first, then its
resolution attempt starts, and `processProductScan` schedules the deletion
`DUPLICATE_SCAN_TIMEOUT` ms after it finishes, on its success and failure
paths alike (the `setTimeout` sits after the try/catch/finally). -/
def stepDetect (s : ScanState) (d : Detection) : ScanState :=
  if isRecent s d.time d.barcode then s
  else
    ⟨(d.barcode, d.time + d.procDur + DUPLICATE_SCAN_TIMEOUT) :: s.seen,
     s.attempts ++ [(d.time, d.barcode)]⟩

/-- Run the scanner on a chronologically ordered stream of detections,
starting from the empty `scannedProductsRef` set. -/
def runScanner (ds : List Detection) : ScanState :=
  ds.foldl stepDetect ⟨[], []⟩

/-! ## HTTP retry (`ApiClient.makeRequest`, `api.ts` lines 63-136) -/

/-- `API_CONFIG.RETRY_ATTEMPTS` from the constants module. -/
def API_RETRY_ATTEMPTS : Nat := 3

/-- `API_CONFIG.RETRY_DELAY` from the constants module, in milliseconds. -/
def API_RETRY_DELAY : Nat := 1000

/-- `API_CONFIG.TIMEOUT` from the constants module, in milliseconds: each
attempt races `fetch` against `createTimeoutPromise(this.timeout)`. -/
def API_TIMEOUT : Nat := 10000

/-- The error-shape part of `shouldRetry` in `makeRequest`: an error
without a numeric `status` (rejected fetch, timeout) is retriable, an HTTP
error only when its status is at least 500. -/
def retriable (e : ReqError) : Bool :=
  match e with
  | .http s => decide (500 ≤ s)
  | .network => true
  | .timedOut => true

/-- Trace of one `makeRequest` call: how many attempts ran, the argument
of each `sleep` call in order, and the settled result. -/
structure ReqTrace where
  attemptsMade : Nat
  sleeps : List Nat
  result : Except ReqError Unit

/-- `ApiClient.makeRequest` with the network abstracted as `oracle`,
mapping each attempt number to that attempt's outcome. On a failed attempt
the code retries exactly when `attempt < retryAttempts` and the error is
retriable, sleeping `retryDelay * attempt` first; otherwise the error is
rethrown to the caller. -/
def makeRequest (retryAttempts retryDelay : Nat)
    (oracle : Nat → Except ReqError Unit) (attempt : Nat) : ReqTrace :=
  match oracle attempt with
  | .ok u => ⟨1, [], .ok u⟩
  | .error e =>
    if attempt < retryAttempts ∧ retriable e = true then
      let rest := makeRequest retryAttempts retryDelay oracle (attempt + 1)
      ⟨rest.attemptsMade + 1, retryDelay * attempt :: rest.sleeps, rest.result⟩
    else ⟨1, [], .error e⟩
termination_by retryAttempts - attempt
decreasing_by simp_wf; omega

/-! ## Barcode resolution (`ProductService.searchByBarcode`, `api.ts`
lines 387-413) -/

/-- The remote catalog as seen by `searchByBarcode`: the settled outcome
of `getProductById(barcode)` (an `ok none` is a success envelope without a
`data` field, which `response.data || null` turns into `null`), and the
settled outcome of `getProducts(\x7bsearch: query\x7d)` for each query
string. -/
structure ApiEnv where
  byId : Except ReqError (Option Product)
  search : String → Except ReqError (List Product)

/-- The body of the outer `try` of `searchByBarcode`: the `Invalid
barcode` throw on an empty string, then the by-ID lookup. -/
def tryById (barcode : String) (env : ApiEnv) :
    Except JsError (Option Product) :=
  if barcode = "" then .error .invalidBarcode
  else
    match env.byId with
    | .error e => .error (.api e)
    | .ok d => .ok d

/-- The body of the inner `try` of `searchByBarcode`: the fallback catalog
search with the barcode as the query, preferring an exact `productId`
match, else the first result, else `null`. -/
def trySearch (barcode : String) (env : ApiEnv) :
    Except JsError (Option Product) :=
  match env.search barcode with
  | .error e => .error (.api e)
  | .ok products =>
    match products.find? (fun p => p.productId == barcode) with
    | some exact => .ok (some exact)
    | none => .ok products.head?

/-- `searchByBarcode`: the outer catch falls through to the fallback
search, whose own catch logs and returns `null`. -/
def searchByBarcode (barcode : String) (env : ApiEnv) :
    Except JsError (Option Product) :=
  match tryById barcode env with
  | .ok r => .ok r
  | .error _ =>
    match trySearch barcode env with
    | .ok r => .ok r
    | .error _ => .ok none

/-- Follows the spec's words for `resolve(barcode)`: first a direct by-ID
lookup; if that fails (network error or not-found), a catalog search with
the barcode as free-text query, preferring an exact `productId` match,
else the first result, else `null`. -/
def resolveSpecModel (barcode : String) (env : ApiEnv) : Option Product :=
  match env.byId with
  | .ok d => d
  | .error _ =>
    match env.search barcode with
    | .error _ => none
    | .ok products =>
      match products.find? (fun p => p.productId == barcode) with
      | some exact => some exact
      | none => products.head?

/-! ## Basket operations -/

/-- `addToCart`'s functional state update in `useCart.ts` (lines 28-66):
increment the quantity of an existing line with the scanned product's id,
else append a fresh line with quantity 1 and the price snapshotted from
`mrpPrice`. (`handleProductScanned` in `GroceryBasket.tsx` performs the
same update via `findIndex`.) -/
def addToCart (items : List BasketItem) (p : Product) : List BasketItem :=
  match items.find? (fun item => item.id == p.productId) with
  | some _ =>
      items.map (fun item =>
        if item.id == p.productId then setQty item (item.quantity + 1)
        else item)
  | none =>
      items ++ [⟨p.productId, p.name, p.mrpPrice, p.image, p.category,
                 p.discounts, 1⟩]

/-- `removeFromCart`'s state update in `useCart.ts`: keep every line whose
id differs. -/
def removeFromCart (items : List BasketItem) (productId : String) :
    List BasketItem :=
  items.filter (fun item => !(item.id == productId))

/-- `updateQuantity`'s state update in `useCart.ts` (lines 81-101): a
non-positive quantity delegates to `removeFromCart`, otherwise the
matching line's quantity is set to exactly the argument. -/
def updateQuantity (items : List BasketItem) (productId : String)
    (quantity : Int) : List BasketItem :=
  if quantity ≤ 0 then removeFromCart items productId
  else
    items.map (fun item =>
      if item.id == productId then setQty item quantity else item)

/-- `updateQuantity` of the standalone `GroceryBasket` variant (the
unnamed source with the plain basket component, lines 66-77): only an
exact zero delegates to `removeItem`; any other value, negative included,
is stored as the line's quantity. -/
def updateQuantityGB (items : List BasketItem) (id : String)
    (newQuantity : Int) : List BasketItem :=
  if newQuantity = 0 then removeFromCart items id
  else
    items.map (fun item =>
      if item.id == id then setQty item newQuantity else item)

/-- `handleUpdateQuantity` in `GroceryBasket.tsx` (lines 108-118): apply a
signed delta clamped at zero, then drop every line whose quantity is not
positive. -/
def handleUpdateQuantity (items : List BasketItem) (productId : String)
    (change : Int) : List BasketItem :=
  (items.map (fun item =>
    if item.id == productId then setQty item (max 0 (item.quantity + change))
    else item)).filter (fun item => decide (0 < item.quantity))

/-- `clearCart` / `handleClearBasket`: the basket becomes empty. -/
def clearCart (_items : List BasketItem) : List BasketItem := []

/-- The basket operations of the pipeline, as cited from `useCart.ts` and
`GroceryBasket.tsx`. -/
inductive CartOp
  | add (p : Product)
  | setQ (id : String) (q : Int)
  | changeQ (id : String) (delta : Int)
  | remove (id : String)
  | clear

/-- Apply one basket operation to the current line items. -/
def applyOp (items : List BasketItem) : CartOp → List BasketItem
  | .add p => addToCart items p
  | .setQ id q => updateQuantity items id q
  | .changeQ id delta => handleUpdateQuantity items id delta
  | .remove id => removeFromCart items id
  | .clear => clearCart items

/-- Run a sequence of basket operations from the empty basket. -/
def runOps (ops : List CartOp) : List BasketItem :=
  ops.foldl applyOp []

/-- The basket invariant of the spec: pairwise distinct line-item ids and
a positive quantity on every line. -/
def CartInv (items : List BasketItem) : Prop :=
  (items.map (fun it => it.id)).Nodup ∧ ∀ it ∈ items, 1 ≤ it.quantity

/-- Quantity recorded for an id, zero when the id is absent. -/
def qtyOf (items : List BasketItem) (id : String) : Int :=
  match items.find? (fun item => item.id == id) with
  | some item => item.quantity
  | none => 0

/-! ## Session guard, optimistic update and background sync (`useCart.ts`) -/

/-- Outcome of one background `cartService` call. -/
inductive SyncResult
  | ok
  | failed
deriving DecidableEq

/-- A remote cart request issued by `useCart`, with the path parameters
and body the source sends. -/
inductive CartRequest
  | addItem (sessionId productId : String) (quantity : Int)
  | updateItem (sessionId productId : String) (quantity : Int)
  | removeItem (sessionId productId : String)
  | clearItems (sessionId : String)
deriving DecidableEq

/-- Observable effect of one `useCart` operation: the local list right
after the synchronous `setCartItems` mutation, the local list once the
call fully settles, the remote requests issued, whether a sync failure was
logged, and whether an exception escapes to the caller. -/
structure OpResult where
  itemsBeforeSync : List BasketItem
  items : List BasketItem
  requests : List CartRequest
  logged : Bool
  raised : Bool
deriving DecidableEq

/-- `addToCart` in `useCart.ts` (lines 28-66): bail out with only a
console error when there is no session; otherwise mutate locally first,
then issue `cartService.addToCart(sessionId, \x7bproductId, quantity: 1\x7d)`,
whose failure is caught and logged with no rollback and no rethrow. -/
def addToCartOp (sid : Option String) (items : List BasketItem)
    (p : Product) (sync : SyncResult) : OpResult :=
  match sid with
  | none => ⟨items, items, [], false, false⟩
  | some s =>
    let newItems := addToCart items p
    ⟨newItems, newItems, [.addItem s p.productId 1],
     sync == .failed, false⟩

/-- `removeFromCart` in `useCart.ts` (lines 68-79): session guard, local
filter, background `DELETE`, failure logged only. -/
def removeFromCartOp (sid : Option String) (items : List BasketItem)
    (productId : String) (sync : SyncResult) : OpResult :=
  match sid with
  | none => ⟨items, items, [], false, false⟩
  | some s =>
    let newItems := removeFromCart items productId
    ⟨newItems, newItems, [.removeItem s productId], sync == .failed, false⟩

/-- `updateQuantity` in `useCart.ts` (lines 81-101): session guard, then a
non-positive quantity delegates to `removeFromCart`; otherwise local map,
background `PUT`, failure logged only. -/
def updateQuantityOp (sid : Option String) (items : List BasketItem)
    (productId : String) (quantity : Int) (sync : SyncResult) : OpResult :=
  match sid with
  | none => ⟨items, items, [], false, false⟩
  | some s =>
    if quantity ≤ 0 then removeFromCartOp (some s) items productId sync
    else
      let newItems := updateQuantity items productId quantity
      ⟨newItems, newItems, [.updateItem s productId quantity],
       sync == .failed, false⟩

/-- `clearCart` in `useCart.ts` (lines 103-114): session guard, local
reset to `[]`, background `DELETE`, failure logged only. -/
def clearCartOp (sid : Option String) (items : List BasketItem)
    (sync : SyncResult) : OpResult :=
  match sid with
  | none => ⟨items, items, [], false, false⟩
  | some s => ⟨[], [], [.clearItems s], sync == .failed, false⟩

/-! ## Derived totals -/

/-- Line item shape used by the utils module: `productToBasketItem` spreads
the whole product and adds a quantity, so `calculateBasketTotals` reads the
unit price from `mrpPrice`. -/
structure UtilBasketItem extends Product where
  quantity : Int
deriving DecidableEq

/-- `productToBasketItem` from the utils module. -/
def productToBasketItem (p : Product) (quantity : Int) : UtilBasketItem :=
  ⟨p, quantity⟩

/-- Result shape of `calculateBasketTotals` (formatting fields omitted:
they are string renderings of these numbers). -/
structure BasketTotals where
  subtotal : ℚ
  totalItems : Int
  deliveryFee : ℚ
  total : ℚ
deriving DecidableEq

/-- `calculateBasketTotals` from the utils module (lines 152-167): two
`reduce` folds, the zero delivery-fee policy constant, and
`total = subtotal + deliveryFee`. -/
def calculateBasketTotals (items : List UtilBasketItem) : BasketTotals :=
  let subtotal := items.foldl
    (fun total item => total + item.mrpPrice * (item.quantity : ℚ)) 0
  let totalItems := items.foldl (fun total item => total + item.quantity) 0
  let deliveryFee : ℚ := 0
  ⟨subtotal, totalItems, deliveryFee, subtotal + deliveryFee⟩

/-- `calculateTotal` in `GroceryBasket.tsx` (lines 124-126), before its
two-decimal string formatting: a `reduce` over `price * quantity`. -/
def calculateTotal (items : List BasketItem) : ℚ :=
  items.foldl (fun total item => total + item.price * (item.quantity : ℚ)) 0

/-- `getTotalItems` in `GroceryBasket.tsx` (lines 128-130). -/
def getTotalItems (items : List BasketItem) : Int :=
  items.foldl (fun total item => total + item.quantity) 0

/-! ## Helper lemmas -/

/-- A left fold accumulating sums equals the starting value plus the sum
of the mapped list. -/
theorem foldl_add_eq_sum {α M : Type} [AddCommMonoid M] (f : α → M) :
    ∀ (l : List α) (a : M), l.foldl (fun t it => t + f it) a = a + (l.map f).sum
  | [], a => by simp
  | x :: xs, a => by
    simp only [List.foldl_cons, List.map_cons, List.sum_cons]
    rw [foldl_add_eq_sum f xs (a + f x), add_assoc]

/-- Both branches of `jsTruthyStock` and `isProductInStock` implement the
same stock test. -/
theorem jsTruthyStock_eq_isProductInStock (p : Product) :
    jsTruthyStock p = isProductInStock p := by
  cases h : p.stock <;> simp [jsTruthyStock, isProductInStock, h, Option.getD]

/-- `find?` on an id-based predicate commutes with a map that preserves
ids. -/
theorem find?_map_id_preserved (f : BasketItem → BasketItem)
    (hf : ∀ it, (f it).id = it.id) (q : String) :
    ∀ items : List BasketItem,
      (items.map f).find? (fun it => it.id == q)
        = (items.find? (fun it => it.id == q)).map f
  | [] => by simp
  | x :: xs => by
    simp only [List.map_cons, List.find?_cons, hf x]
    cases hx : (x.id == q) with
    | true => simp
    | false => simpa using find?_map_id_preserved f hf q xs

/-! ## C1 -/

/-- A product whose optional `stock` field is absent. -/
def pNoStock : Product := ⟨"P002", "Milk", 10, "", "Dairy", none, none, none⟩

/-- C1 counterexample: a successfully resolved, unexpired product whose
`stock` field is absent is reported out of stock and not added to the
basket, and the utils-side `isProductInStock` agrees; the claimed
absent-implies-available asymmetry fails on both cited code sites. -/
theorem availability_gate_counterexample :
    pNoStock.stock = none ∧
    jsIsExpired pNoStock 0 = false ∧
    processProductScan (.ok (some pNoStock)) 0 = .outOfStock pNoStock ∧
    processProductScan (.ok (some pNoStock)) 0 ≠ .added pNoStock ∧
    isProductInStock pNoStock = false :=
  ⟨rfl, rfl, rfl, fun h => by rw [show processProductScan (.ok (some pNoStock)) 0
      = .outOfStock pNoStock from rfl] at h; exact ScanOutcome.noConfusion h, rfl⟩

/-- C1 amended: for every successfully resolved product, the scan pipeline
adds it to the basket iff it is not expired and its `stock` field is
present with a positive value; a product with an absent `stock` field is
treated as out of stock (absent implies unavailable), and `isProductInStock`
implements the same present-and-positive test. -/
theorem availability_gate_amended (p : Product) (now : Int) :
    (processProductScan (.ok (some p)) now = .added p ↔
      jsIsExpired p now = false ∧ isProductInStock p = true) ∧
    (isProductInStock p = true ↔ ∃ s, p.stock = some s ∧ 0 < s) ∧
    (p.stock = none → isProductInStock p = false) := by
  have hst := jsTruthyStock_eq_isProductInStock p
  refine ⟨?_, ?_, ?_⟩
  · by_cases he : jsIsExpired p now <;> by_cases hs : jsTruthyStock p <;>
      simp [processProductScan, he, hs, ← hst]
  · cases h : p.stock with
    | none => simp [isProductInStock, h]
    | some s => simp [isProductInStock, h]
  · intro h
    simp [isProductInStock, h]

/-- C1 amended witness at the concrete absent-stock product. -/
theorem availability_gate_amended_witness :
    isProductInStock pNoStock = false :=
  (availability_gate_amended pNoStock 0).2.2 rfl

/-! ## C8 -/

/-- C8: the derived totals are computed fresh from the line items on each
call: `subtotal` is the sum of unit price times quantity, `totalItems`
the sum of quantities, the delivery fee is the zero policy constant, and
`total = subtotal + deliveryFee`; the `GroceryBasket.tsx` reducers satisfy
the same sums, also when applied to the current items of any reachable
basket state. -/
theorem totals_consistency (items : List UtilBasketItem)
    (bitems : List BasketItem) (ops : List CartOp) :
    (calculateBasketTotals items).subtotal
      = (items.map (fun it => it.mrpPrice * (it.quantity : ℚ))).sum ∧
    (calculateBasketTotals items).totalItems
      = (items.map (fun it => it.quantity)).sum ∧
    (calculateBasketTotals items).deliveryFee = 0 ∧
    (calculateBasketTotals items).total
      = (calculateBasketTotals items).subtotal
          + (calculateBasketTotals items).deliveryFee ∧
    calculateTotal bitems
      = (bitems.map (fun it => it.price * (it.quantity : ℚ))).sum ∧
    getTotalItems bitems = (bitems.map (fun it => it.quantity)).sum ∧
    calculateTotal (runOps ops)
      = ((runOps ops).map (fun it => it.price * (it.quantity : ℚ))).sum := by
  refine ⟨?_, ?_, rfl, rfl, ?_, ?_, ?_⟩ <;>
    simp [calculateBasketTotals, calculateTotal, getTotalItems,
      foldl_add_eq_sum]

/-! ## C9 -/

/-- C9: with a `null` session identifier, every cart operation leaves the
local basket untouched, issues no remote request, logs no sync failure and
raises nothing, so a scanned product is silently not added. -/
theorem no_session_guard (items : List BasketItem) (p : Product)
    (productId : String) (q : Int) (sync : SyncResult) :
    addToCartOp none items p sync = ⟨items, items, [], false, false⟩ ∧
    removeFromCartOp none items productId sync
      = ⟨items, items, [], false, false⟩ ∧
    updateQuantityOp none items productId q sync
      = ⟨items, items, [], false, false⟩ ∧
    clearCartOp none items sync = ⟨items, items, [], false, false⟩ :=
  ⟨rfl, rfl, rfl, rfl⟩

/-! ## C6 -/

/-- C6: with a session present, every cart operation applies its local
mutation synchronously; once the background sync settles the local list is
exactly the optimistic one whatever the sync outcome, a failure is only
logged, and no exception reaches the caller. -/
theorem optimistic_no_rollback (s : String) (items : List BasketItem)
    (p : Product) (productId : String) (q : Int) (sync sync2 : SyncResult) :
    ((addToCartOp (some s) items p sync).itemsBeforeSync
        = addToCart items p ∧
      (addToCartOp (some s) items p sync).items
        = (addToCartOp (some s) items p sync).itemsBeforeSync ∧
      (addToCartOp (some s) items p sync).raised = false ∧
      (addToCartOp (some s) items p sync).items
        = (addToCartOp (some s) items p sync2).items) ∧
    ((updateQuantityOp (some s) items productId q sync).itemsBeforeSync
        = updateQuantity items productId q ∧
      (updateQuantityOp (some s) items productId q sync).items
        = (updateQuantityOp (some s) items productId q sync).itemsBeforeSync ∧
      (updateQuantityOp (some s) items productId q sync).raised = false ∧
      (updateQuantityOp (some s) items productId q sync).items
        = (updateQuantityOp (some s) items productId q sync2).items) ∧
    ((removeFromCartOp (some s) items productId sync).itemsBeforeSync
        = removeFromCart items productId ∧
      (removeFromCartOp (some s) items productId sync).items
        = (removeFromCartOp (some s) items productId sync).itemsBeforeSync ∧
      (removeFromCartOp (some s) items productId sync).raised = false ∧
      (removeFromCartOp (some s) items productId sync).items
        = (removeFromCartOp (some s) items productId sync2).items) ∧
    ((clearCartOp (some s) items sync).itemsBeforeSync = [] ∧
      (clearCartOp (some s) items sync).items
        = (clearCartOp (some s) items sync).itemsBeforeSync ∧
      (clearCartOp (some s) items sync).raised = false ∧
      (clearCartOp (some s) items sync).items
        = (clearCartOp (some s) items sync2).items) := by
  refine ⟨⟨rfl, rfl, rfl, rfl⟩, ?_, ⟨rfl, rfl, rfl, rfl⟩, ⟨rfl, rfl, rfl, rfl⟩⟩
  by_cases hq : q ≤ 0 <;>
    simp [updateQuantityOp, updateQuantity, removeFromCartOp, hq]


/-! ## C2 -/

/-- A detection whose value is not in the recently-seen set adds the value
with its removal instant and appends a resolution attempt. -/
theorem stepDetect_fresh (s : ScanState) (d : Detection)
    (h : isRecent s d.time d.barcode = false) :
    stepDetect s d
      = ⟨(d.barcode, d.time + d.procDur + DUPLICATE_SCAN_TIMEOUT) :: s.seen,
         s.attempts ++ [(d.time, d.barcode)]⟩ := by
  simp [stepDetect, h]

/-- A detection whose value is in the recently-seen set is ignored. -/
theorem stepDetect_dup (s : ScanState) (d : Detection)
    (h : isRecent s d.time d.barcode = true) :
    stepDetect s d = s := by
  simp [stepDetect, h]

/-- C2: a barcode detected while in the recently-seen set triggers nothing;
a fresh barcode is recorded in the set before its processing starts and
its resolution attempt is appended; the removal instant is scheduled
whether processing succeeded or failed; and on a two-detection stream of
the same barcode, a repeat before the removal instant (the cooldown
counted from the end of processing) yields one attempt while a repeat at
or after it yields two. -/
theorem scan_dedup_cooldown (s : ScanState) (d1 d2 : Detection)
    (hb : d2.barcode = d1.barcode) :
    (isRecent s d1.time d1.barcode = true → stepDetect s d1 = s) ∧
    (isRecent s d1.time d1.barcode = false →
      (stepDetect s d1).attempts = s.attempts ++ [(d1.time, d1.barcode)] ∧
      ∀ t, t < d1.time + d1.procDur + DUPLICATE_SCAN_TIMEOUT →
        isRecent (stepDetect s d1) t d1.barcode = true) ∧
    stepDetect s d1 = stepDetect s ⟨d1.time, d1.barcode, d1.procDur, !d1.ok⟩ ∧
    (d2.time < d1.time + d1.procDur + DUPLICATE_SCAN_TIMEOUT →
      (runScanner [d1, d2]).attempts = [(d1.time, d1.barcode)]) ∧
    (d1.time + d1.procDur + DUPLICATE_SCAN_TIMEOUT ≤ d2.time →
      (runScanner [d1, d2]).attempts
        = [(d1.time, d1.barcode), (d2.time, d1.barcode)]) := by
  obtain ⟨t1, b1, dur1, ok1⟩ := d1
  obtain ⟨t2, b2, dur2, ok2⟩ := d2
  simp only at hb
  subst b2
  have hempty : isRecent ⟨[], []⟩ t1 b1 = false := rfl
  have hrun : runScanner [⟨t1, b1, dur1, ok1⟩, ⟨t2, b1, dur2, ok2⟩]
      = stepDetect (stepDetect ⟨[], []⟩ ⟨t1, b1, dur1, ok1⟩)
          ⟨t2, b1, dur2, ok2⟩ := rfl
  have h1 := stepDetect_fresh ⟨[], []⟩ ⟨t1, b1, dur1, ok1⟩ hempty
  refine ⟨stepDetect_dup s _, ?_, rfl, ?_, ?_⟩
  · intro h
    rw [stepDetect_fresh s _ h]
    refine ⟨rfl, ?_⟩
    intro t ht
    simp only at ht
    simp [isRecent, List.any_cons, ht]
  · intro h
    simp only at h
    have h2 : isRecent ⟨[(b1, t1 + dur1 + DUPLICATE_SCAN_TIMEOUT)],
        [(t1, b1)]⟩ t2 b1 = true := by
      simp [isRecent, List.any_cons, h]
    rw [hrun, h1, stepDetect_dup _ _ h2]
    simp
  · intro h
    simp only at h
    have h2 : isRecent ⟨[(b1, t1 + dur1 + DUPLICATE_SCAN_TIMEOUT)],
        [(t1, b1)]⟩ t2 b1 = false := by
      simp [isRecent, List.any_cons]
      omega
    rw [hrun, h1, stepDetect_fresh _ _ h2]
    simp

/-- C2 witness: a repeat of `P001` 1000 ms after the first detection is
suppressed; a repeat at the removal instant of a detection whose
processing took 100 ms starts a second attempt. -/
theorem scan_dedup_cooldown_witness :
    (runScanner [⟨0, "P001", 100, true⟩, ⟨1000, "P001", 0, true⟩]).attempts
      = [(0, "P001")] ∧
    (runScanner [⟨0, "P001", 100, false⟩, ⟨3100, "P001", 0, true⟩]).attempts
      = [(0, "P001"), (3100, "P001")] :=
  ⟨(scan_dedup_cooldown ⟨[], []⟩ ⟨0, "P001", 100, true⟩ ⟨1000, "P001", 0, true⟩
      rfl).2.2.2.1 (by decide),
   (scan_dedup_cooldown ⟨[], []⟩ ⟨0, "P001", 100, false⟩ ⟨3100, "P001", 0, true⟩
      rfl).2.2.2.2 (by decide)⟩

/-! ## C3 -/

/-- When every attempt from `a` on fails retriably and `a + k` equals the
attempt budget, `makeRequest` runs the remaining `k + 1` attempts, sleeps
`retryDelay * attemptNumber` before each retry, and surfaces the final
attempt's error. -/
theorem makeRequest_allFail (R d : Nat) (oracle : Nat → Except ReqError Unit)
    (e : Nat → ReqError)
    (hfail : ∀ n, oracle n = .error (e n))
    (hret : ∀ n, retriable (e n) = true) :
    ∀ (k a : Nat), a + k = R →
      makeRequest R d oracle a
        = ⟨k + 1, (List.range k).map (fun i => d * (a + i)), .error (e R)⟩ := by
  intro k
  induction k with
  | zero =>
    intro a ha
    rw [makeRequest, hfail a]
    dsimp only
    have hnot : ¬(a < R ∧ retriable (e a) = true) := by
      intro hcon
      omega
    rw [if_neg hnot]
    have haR : a = R := by omega
    simp [haR]
  | succ k ih =>
    intro a ha
    rw [makeRequest, hfail a]
    dsimp only
    have hcond : a < R ∧ retriable (e a) = true := ⟨by omega, hret a⟩
    rw [if_pos hcond]
    rw [ih (a + 1) (by omega)]
    have hfun : (fun i => d * (a + Nat.succ i)) = fun i => d * (a + 1 + i) := by
      funext i
      congr 1
      omega
    simp [List.range_succ_eq_map, List.map_map, Function.comp_def, hfun]

/-- C3: a request whose every attempt fails with a network error, timeout
or 5xx runs exactly `retryAttempts` attempts, sleeping
`retryDelay * attemptNumber` before each retry, then surfaces the last
error; a first attempt failing with a status below 500 (every 4xx) is
never retried; a timeout or network failure is retriable while statuses
of at least 500 are; and the configured defaults are 3 attempts, a
1000 ms base delay and a 10000 ms per-attempt timeout race. -/
theorem retry_linear_backoff (R d s : Nat)
    (oracle oracle2 : Nat → Except ReqError Unit) (e : Nat → ReqError)
    (hR : 1 ≤ R)
    (hfail : ∀ n, oracle n = .error (e n))
    (hret : ∀ n, retriable (e n) = true)
    (h4 : s < 500)
    (h42 : oracle2 1 = .error (.http s)) :
    (makeRequest R d oracle 1).attemptsMade = R ∧
    (makeRequest R d oracle 1).sleeps
      = (List.range (R - 1)).map (fun i => d * (1 + i)) ∧
    (makeRequest R d oracle 1).result = .error (e R) ∧
    (makeRequest R d oracle2 1).attemptsMade = 1 ∧
    (makeRequest R d oracle2 1).sleeps = [] ∧
    (makeRequest R d oracle2 1).result = .error (.http s) ∧
    retriable .timedOut = true ∧
    retriable .network = true ∧
    (∀ n, 500 ≤ n → retriable (.http n) = true) ∧
    API_RETRY_ATTEMPTS = 3 ∧ API_RETRY_DELAY = 1000 ∧ API_TIMEOUT = 10000 := by
  have hmain := makeRequest_allFail R d oracle e hfail hret (R - 1) 1 (by omega)
  have h2 : makeRequest R d oracle2 1 = ⟨1, [], .error (.http s)⟩ := by
    rw [makeRequest, h42]
    dsimp only
    have hnot : ¬(1 < R ∧ retriable (.http s) = true) := by
      simp only [retriable, decide_eq_true_eq]
      omega
    rw [if_neg hnot]
  rw [hmain, h2]
  refine ⟨by simp; omega, rfl, rfl, rfl, rfl, rfl, rfl, rfl, ?_, rfl, rfl, rfl⟩
  intro n hn
  simp [retriable, hn]

/-- C3 witness: three attempts and sleeps of 1000 and 2000 ms when the
network always fails, one attempt on a 404. -/
theorem retry_linear_backoff_witness :
    (makeRequest 3 1000 (fun _ => .error .network) 1).attemptsMade = 3 ∧
    (makeRequest 3 1000 (fun _ => .error .network) 1).sleeps
      = (List.range 2).map (fun i => 1000 * (1 + i)) ∧
    (makeRequest 3 1000 (fun _ => .error (.http 404)) 1).attemptsMade = 1 := by
  have h := retry_linear_backoff 3 1000 404 (fun _ => .error .network)
    (fun _ => .error (.http 404)) (fun _ => .network)
    (by decide) (fun n => rfl) (fun n => rfl) (by decide) rfl
  exact ⟨h.1, h.2.1, h.2.2.2.1⟩

/-! ## C4 -/

/-- A basket holding one line of `P001` with quantity 3. -/
def basket3 : List BasketItem := [⟨"P001", "Milk", 10, "", "Dairy", none, 3⟩]

/-- C4 counterexample: in the standalone `GroceryBasket` variant, setting
the quantity of `P001` to the non-positive value -1 does not remove the
line; the item stays in the basket with quantity -1, unlike `remove`. -/
theorem setQuantity_counterexample :
    updateQuantityGB basket3 "P001" (-1)
      = [⟨"P001", "Milk", 10, "", "Dairy", none, -1⟩] ∧
    removeFromCart basket3 "P001" = [] ∧
    updateQuantityGB basket3 "P001" (-1) ≠ removeFromCart basket3 "P001" := by
  refine ⟨rfl, rfl, ?_⟩
  rw [show removeFromCart basket3 "P001" = [] from rfl,
    show updateQuantityGB basket3 "P001" (-1)
      = [⟨"P001", "Milk", 10, "", "Dairy", none, -1⟩] from rfl]
  simp

/-- C4 amended: in the `useCart` hook, any quantity at most 0 removes the
id from the basket and any positive quantity is stored exactly; in the
standalone `GroceryBasket` variant only an exact 0 removes, while every
nonzero quantity, negative values included, is stored exactly as given. -/
theorem setQuantity_amended (items : List BasketItem) (id : String)
    (q : Int) :
    (q ≤ 0 → ∀ it ∈ updateQuantity items id q, ¬it.id = id) ∧
    (0 < q → ∀ it ∈ updateQuantity items id q,
      it.id = id → it.quantity = q) ∧
    (∀ it ∈ updateQuantityGB items id 0, ¬it.id = id) ∧
    (q ≠ 0 → ∀ it ∈ updateQuantityGB items id q,
      it.id = id → it.quantity = q) := by
  refine ⟨?_, ?_, ?_, ?_⟩
  · intro hq it hmem
    rw [updateQuantity, if_pos hq, removeFromCart] at hmem
    have := (List.mem_filter.mp hmem).2
    simpa using this
  · intro hq it hmem hit
    rw [updateQuantity, if_neg (by omega)] at hmem
    obtain ⟨it0, _, heq⟩ := List.mem_map.mp hmem
    by_cases h0 : it0.id == id
    · rw [if_pos h0] at heq
      rw [← heq]
      rfl
    · rw [if_neg h0] at heq
      rw [← heq] at hit
      simp [hit] at h0
  · intro it hmem
    rw [updateQuantityGB, if_pos rfl, removeFromCart] at hmem
    have := (List.mem_filter.mp hmem).2
    simpa using this
  · intro hq it hmem hit
    rw [updateQuantityGB, if_neg hq] at hmem
    obtain ⟨it0, _, heq⟩ := List.mem_map.mp hmem
    by_cases h0 : it0.id == id
    · rw [if_pos h0] at heq
      rw [← heq]
      rfl
    · rw [if_neg h0] at heq
      rw [← heq] at hit
      simp [hit] at h0

/-- C4 amended witness: setting quantity 0 in the `useCart` hook removes
`P001` from the concrete basket. -/
theorem setQuantity_amended_witness :
    ∀ it ∈ updateQuantity basket3 "P001" 0, ¬it.id = "P001" :=
  (setQuantity_amended basket3 "P001" 0).1 (by decide)

/-! ## C5 -/

/-- Mapping an id-preserving function over the lines leaves the id list
unchanged. -/
theorem map_id_preserved (f : BasketItem → BasketItem)
    (hf : ∀ it, (f it).id = it.id) (items : List BasketItem) :
    (items.map f).map (fun it => it.id) = items.map (fun it => it.id) := by
  rw [List.map_map]
  exact List.map_congr_left (fun a _ => hf a)

/-- The conditional quantity rewrite used by `addToCart`, `updateQuantity`
and `handleUpdateQuantity` preserves ids. -/
theorem ite_setQty_id (pid : String) (g : BasketItem → Int) :
    ∀ it : BasketItem,
      ((if it.id == pid then setQty it (g it) else it)).id = it.id := by
  intro it
  by_cases hx : it.id == pid <;> simp [hx, setQty]

/-- `removeFromCart` preserves the basket invariant. -/
theorem cartInv_removeFromCart (items : List BasketItem) (id : String)
    (h : CartInv items) : CartInv (removeFromCart items id) := by
  obtain ⟨hnd, hq⟩ := h
  refine ⟨?_, ?_⟩
  · exact List.Nodup.sublist (List.Sublist.map _ (List.filter_sublist items)) hnd
  · intro it hmem
    exact hq it (List.mem_filter.mp hmem).1

/-- `addToCart` preserves the basket invariant. -/
theorem cartInv_addToCart (items : List BasketItem) (p : Product)
    (h : CartInv items) : CartInv (addToCart items p) := by
  obtain ⟨hnd, hq⟩ := h
  unfold addToCart
  cases hfind : items.find? (fun it => it.id == p.productId) with
  | some it =>
    refine ⟨?_, ?_⟩
    · rw [map_id_preserved _ (ite_setQty_id p.productId (fun it => it.quantity + 1)) items]
      exact hnd
    · intro it2 hmem
      obtain ⟨it0, hmem0, heq⟩ := List.mem_map.mp hmem
      have hq0 := hq it0 hmem0
      by_cases hx : it0.id == p.productId
      · rw [if_pos hx] at heq
        rw [← heq]
        simp only [setQty]
        omega
      · rw [if_neg hx] at heq
        rw [← heq]
        exact hq0
  | none =>
    have hnotin : p.productId ∉ items.map (fun it => it.id) := by
      intro hin
      obtain ⟨it0, hmem0, hid⟩ := List.mem_map.mp hin
      have := List.find?_eq_none.mp hfind it0 hmem0
      simp [hid] at this
    refine ⟨?_, ?_⟩
    · rw [List.map_append]
      rw [List.nodup_append]
      refine ⟨hnd, List.nodup_singleton _, ?_⟩
      intro a ha hb
      simp only [List.map_cons, List.map_nil, List.mem_singleton] at hb
      rw [hb] at ha
      exact hnotin ha
    · intro it2 hmem
      rcases List.mem_append.mp hmem with hl | hr
      · exact hq it2 hl
      · simp only [List.mem_singleton] at hr
        simp [hr]

/-- `updateQuantity` preserves the basket invariant. -/
theorem cartInv_updateQuantity (items : List BasketItem) (id : String)
    (q : Int) (h : CartInv items) : CartInv (updateQuantity items id q) := by
  unfold updateQuantity
  by_cases hq : q ≤ 0
  · rw [if_pos hq]
    exact cartInv_removeFromCart items id h
  · rw [if_neg hq]
    obtain ⟨hnd, hqt⟩ := h
    refine ⟨?_, ?_⟩
    · rw [map_id_preserved _ (ite_setQty_id id (fun _ => q)) items]
      exact hnd
    · intro it2 hmem
      obtain ⟨it0, hmem0, heq⟩ := List.mem_map.mp hmem
      by_cases hx : it0.id == id
      · rw [if_pos hx] at heq
        rw [← heq]
        simp only [setQty]
        omega
      · rw [if_neg hx] at heq
        rw [← heq]
        exact hqt it0 hmem0

/-- `handleUpdateQuantity` preserves the basket invariant. -/
theorem cartInv_handleUpdateQuantity (items : List BasketItem) (id : String)
    (delta : Int) (h : CartInv items) :
    CartInv (handleUpdateQuantity items id delta) := by
  obtain ⟨hnd, _⟩ := h
  unfold handleUpdateQuantity
  refine ⟨?_, ?_⟩
  · apply List.Nodup.sublist (List.Sublist.map _ (List.filter_sublist _))
    rw [map_id_preserved _ (ite_setQty_id id (fun it => max 0 (it.quantity + delta)))]
    exact hnd
  · intro it hmem
    have h2 := (List.mem_filter.mp hmem).2
    simp only [decide_eq_true_eq] at h2
    omega

/-- Every basket operation preserves the basket invariant. -/
theorem cartInv_applyOp (items : List BasketItem) (op : CartOp)
    (h : CartInv items) : CartInv (applyOp items op) := by
  cases op with
  | add p => exact cartInv_addToCart items p h
  | setQ id q => exact cartInv_updateQuantity items id q h
  | changeQ id delta => exact cartInv_handleUpdateQuantity items id delta h
  | remove id => exact cartInv_removeFromCart items id h
  | clear => exact ⟨List.nodup_nil, fun it hmem => absurd hmem (List.not_mem_nil it)⟩

/-- The basket invariant is preserved along any operation sequence. -/
theorem cartInv_foldl :
    ∀ (ops : List CartOp) (items : List BasketItem), CartInv items →
      CartInv (ops.foldl applyOp items)
  | [], _, h => h
  | op :: ops, items, h =>
    cartInv_foldl ops (applyOp items op) (cartInv_applyOp items op h)

/-- One `addToCart` changes exactly the scanned id's recorded quantity,
by one. -/
theorem qtyOf_addToCart (items : List BasketItem) (p : Product)
    (id : String) :
    qtyOf (addToCart items p) id
      = qtyOf items id + (if p.productId = id then 1 else 0) := by
  unfold addToCart qtyOf
  cases hfind : items.find? (fun it => it.id == p.productId) with
  | some it =>
    rw [find?_map_id_preserved _ (ite_setQty_id p.productId (fun it => it.quantity + 1)) id items]
    cases hfind2 : items.find? (fun it => it.id == id) with
    | some it2 =>
      simp only [Option.map_some']
      by_cases hid : p.productId = id
      · subst hid
        have hp := List.find?_some hfind2
        rw [if_pos hp]
        simp [setQty]
      · have hp := List.find?_some hfind2
        simp only [beq_iff_eq] at hp
        have hne : ¬(it2.id == p.productId) = true := by
          simp only [beq_iff_eq, hp]
          intro hh
          exact hid hh.symm
        rw [if_neg hne]
        simp [hid]
    | none =>
      by_cases hid : p.productId = id
      · subst hid
        rw [hfind] at hfind2
        cases hfind2
      · simp [hid]
  | none =>
    rw [List.find?_append]
    cases hfind2 : items.find? (fun it => it.id == id) with
    | some it2 =>
      by_cases hid : p.productId = id
      · subst hid
        rw [hfind] at hfind2
        cases hfind2
      · simp [Option.or, hid]
    | none =>
      simp only [Option.none_or]
      by_cases hid : p.productId = id
      · simp [List.find?_cons, hid]
      · simp [List.find?_cons, hid]

/-- Folding adds over a product list accumulates, per id, the count of
adds for that id. -/
theorem qtyOf_foldl_add (id : String) :
    ∀ (ps : List Product) (items : List BasketItem),
      qtyOf (ps.foldl addToCart items) id
        = qtyOf items id
            + ((ps.filter (fun p => p.productId == id)).length : Int)
  | [], items => by simp
  | p :: ps, items => by
    simp only [List.foldl_cons, List.filter_cons]
    rw [qtyOf_foldl_add id ps (addToCart items p), qtyOf_addToCart]
    by_cases hid : p.productId = id
    · simp only [hid, beq_self_eq_true, if_true, List.length_cons]
      push_cast
      ring
    · simp only [hid, if_false]
      rw [if_neg (by simp [hid])]
      ring

/-- C5: every basket state reachable from the empty basket through the
pipeline's operations has pairwise distinct line-item ids with positive
quantities, and after a sequence of adds alone each id's quantity equals
the number of adds carrying that id. -/
theorem basket_uniqueness_invariant (ops : List CartOp) (ps : List Product)
    (id : String) :
    CartInv (runOps ops) ∧
    qtyOf (runOps (ps.map CartOp.add)) id
      = ((ps.filter (fun p => p.productId == id)).length : Int) := by
  refine ⟨?_, ?_⟩
  · exact cartInv_foldl ops [] ⟨List.nodup_nil, by simp⟩
  · rw [runOps, List.foldl_map]
    have harg : (fun (acc : List BasketItem) (p : Product) =>
        applyOp acc (CartOp.add p)) = addToCart := rfl
    rw [harg, qtyOf_foldl_add]
    simp [qtyOf]

/-- An in-stock product used as a concrete scan subject. -/
def pExact : Product := ⟨"P001", "Apples", 30, "", "Fruits", none, some 5, none⟩

/-- C5 witness: adding `P001` twice and `P002` once from the empty basket
records quantity 2 for `P001`. -/
theorem basket_uniqueness_invariant_witness :
    qtyOf (runOps ([pExact, pExact, pNoStock].map CartOp.add)) "P001" = 2 := by
  rw [(basket_uniqueness_invariant [] [pExact, pExact, pNoStock] "P001").2]
  rfl


/-! ## C7 -/

/-- C7: for every non-empty barcode, `searchByBarcode` computes exactly
the spec's fallback order — by-ID lookup first, then on its failure the
catalog search with the barcode as query, preferring the exact
`productId` match, else the first result, else `null`. -/
theorem resolution_fallback_refines (barcode : String) (env : ApiEnv)
    (hb : barcode ≠ "") :
    searchByBarcode barcode env = .ok (resolveSpecModel barcode env) := by
  unfold searchByBarcode tryById trySearch resolveSpecModel
  rw [if_neg hb]
  cases env.byId with
  | ok d => rfl
  | error e =>
    dsimp only
    cases env.search barcode with
    | error e2 => rfl
    | ok ps =>
      dsimp only
      cases ps.find? (fun p => p.productId == barcode) with
      | some x => rfl
      | none => rfl

/-- The catalog environment used by the resolution witnesses: the by-ID
lookup always fails with a network error and every search returns the one
product `P001`. -/
def envW : ApiEnv := ⟨.error .network, fun _ => .ok [pExact]⟩

/-- C7 witness: on `P001` against the concrete failing-by-ID environment,
the code and the spec model agree and resolve to the exact match. -/
theorem resolution_fallback_refines_witness :
    searchByBarcode "P001" envW = .ok (some pExact) := by
  rw [resolution_fallback_refines "P001" envW (by decide)]
  rfl

/-! ## C10 -/

/-- C10 counterexample: an empty (invalid) barcode does not collapse to
the `null` outcome — its validation error is caught and the fallback
search runs, here returning the first search result. -/
theorem resolution_totality_counterexample :
    searchByBarcode "" ⟨.ok none, fun _ => .ok [pExact]⟩
      = .ok (some pExact) ∧
    (some pExact : Option Product) ≠ none := by
  refine ⟨rfl, ?_⟩
  simp

/-- C10 amended: `searchByBarcode` always fulfills with a product or
`null` and never rejects; an invalid barcode or failed by-ID lookup falls
through to the catalog search, and the result collapses to `null` when
that fallback also fails or returns an empty list. -/
theorem resolution_totality_amended (barcode : String) (env : ApiEnv) :
    (∃ r, searchByBarcode barcode env = .ok r) ∧
    (∀ e e2, tryById barcode env = .error e →
      env.search barcode = .error e2 →
      searchByBarcode barcode env = .ok none) ∧
    (∀ e, tryById barcode env = .error e → env.search barcode = .ok [] →
      searchByBarcode barcode env = .ok none) := by
  refine ⟨?_, ?_, ?_⟩
  · unfold searchByBarcode
    cases tryById barcode env with
    | ok r => exact ⟨r, rfl⟩
    | error e =>
      dsimp only
      cases trySearch barcode env with
      | ok r => exact ⟨r, rfl⟩
      | error e2 => exact ⟨none, rfl⟩
  · intro e e2 h1 h2
    simp only [searchByBarcode, trySearch, h1, h2]
  · intro e h1 h2
    simp only [searchByBarcode, trySearch, h1, h2]
    rfl

/-- C10 amended witness: both lookups failing on `P001` yields the `ok
null` outcome. -/
theorem resolution_totality_amended_witness :
    searchByBarcode "P001" ⟨.error .network, fun _ => .error .network⟩
      = .ok none :=
  (resolution_totality_amended "P001"
      ⟨.error .network, fun _ => .error .network⟩).2.1
    (.api .network) .network rfl rfl
